import Mathlib

/-!
Verification of the sponsor session and update-lifecycle core of the
donor/sponsor portal against its natural-language specification.

The relational store is modelled as a list of rows per table; timestamps
are naturals (milliseconds since the epoch); every database function from
the database layer is translated into a pure function over the store
lists, with the current time passed explicitly where the source reads the
clock.  The Airtable-compatible record conversion
(`toAirtableSponsorshipRecord` / `toAirtableUpdateRecord`) is a
field-for-field renaming, so records are modelled by the rows themselves.
-/

namespace BeanUmber

/-- An attachment entry of a `child_photo` / `photos` column. -/
structure Photo where
  id : String
  url : String
  filename : String
  size : Nat
  mime : String
  width : Option Nat
  height : Option Nat
deriving DecidableEq, Repr

/-- The `auth_status` column of a sponsorship row. -/
inductive AuthStatus
  | Active
  | Inactive
  | Suspended
deriving DecidableEq, Repr

/-- The `status` column of a sponsorship row. -/
inductive SponsorshipStatus
  | Active
  | Paused
  | Ended
  | AwaitingSponsor
deriving DecidableEq, Repr

/-- The `update_type` column of an update row. -/
inductive UpdateType
  | ProgressReport
  | PhotoUpdate
  | SpecialNote
  | HolidayGreeting
  | Milestone
deriving DecidableEq, Repr

/-- The `status` column of an update row. -/
inductive UpdateStatus
  | PendingReview
  | Published
  | Rejected
deriving DecidableEq, Repr

/-- `SupabaseSponsorshipRow`: one row of the `sponsorships` table. -/
structure SponsorshipRow where
  id : String
  sponsor_code : String
  sponsor_email : String
  sponsor_name : Option String
  child_id : String
  child_display_name : String
  child_photo : Option (List Photo)
  child_age : Option String
  child_location : Option String
  sponsorship_start_date : Option Nat
  auth_status : AuthStatus
  status : Option SponsorshipStatus
  visible_to_sponsor : Bool
  last_request_at : Option Nat
  next_request_eligible_at : Option Nat
  created_at : Nat
deriving DecidableEq, Repr

/-- `SupabaseUpdateRow`: one row of the `updates` table. -/
structure UpdateRow where
  id : String
  child_id : String
  sponsor_code : Option String
  update_type : UpdateType
  title : String
  content : String
  photos : Option (List Photo)
  status : UpdateStatus
  visible_to_sponsor : Bool
  requested_by_sponsor : Option Bool
  requested_at : Option Nat
  published_at : Option Nat
  submitted_by : Option String
  submitted_at : Option Nat
  created_at : Nat
deriving DecidableEq, Repr

/-- `findSponsorshipByCode`: select from `sponsorships` where
`sponsor_code = code`, `auth_status = Active`, `visible_to_sponsor = true`,
`limit 1` / `single`; zero rows surface as null. -/
def findSponsorshipByCode (store : List SponsorshipRow) (code : String) :
    Option SponsorshipRow :=
  (store.filter fun r =>
    r.sponsor_code == code && r.auth_status == AuthStatus.Active &&
      r.visible_to_sponsor == true).head?

/-- The query step of `findSponsorshipByCredentials`: select from
`sponsorships` where `sponsor_email = email`, `sponsor_code = code`,
`auth_status = Active`, `visible_to_sponsor = true`, `limit 1` / `single`. -/
def credentialsQuery (store : List SponsorshipRow) (email code : String) :
    Option SponsorshipRow :=
  (store.filter fun r =>
    r.sponsor_email == email && r.sponsor_code == code &&
      r.auth_status == AuthStatus.Active && r.visible_to_sponsor == true).head?

/-- The client-side step of `findSponsorshipByCredentials` after the query
resolves: `return data ? toAirtableSponsorshipRecord(data) : null` — the
row, when present, is converted (a pure renaming) and returned directly. -/
def credentialsPostProcess (data : Option SponsorshipRow) :
    Option SponsorshipRow :=
  match data with
  | some row => some row
  | none => none

/-- `findSponsorshipByCredentials`: the query followed by the client-side
return step. -/
def findSponsorshipByCredentials (store : List SponsorshipRow)
    (email code : String) : Option SponsorshipRow :=
  credentialsPostProcess (credentialsQuery store email code)

/-- `SessionData` as recovered from the session cookie.  The `expires`
field of the cookie is a string fed to `new Date(...)`; we model it by the
parsed timestamp, `none` standing for an unparseable date (`NaN`). -/
structure SessionData where
  email : String
  sponsorCode : String
  expires : Option Nat
deriving DecidableEq, Repr

/-- The expiry test of `getSession`: `new Date(session.expires) < new
Date()`.  A `NaN` expiry compares false, so such a session is kept. -/
def sessionExpiredBefore (s : SessionData) (now : Nat) : Bool :=
  match s.expires with
  | some e => decide (e < now)
  | none => false

/-- `getSession`: read the session cookie.  The cookie argument is `none`
when absent, `some none` when present but not parseable as a session
object (JSON.parse throws and the catch returns null), and
`some (some s)` when it parses to `s`.  An expired session yields null. -/
def getSession (cookie : Option (Option SessionData)) (now : Nat) :
    Option SessionData :=
  match cookie with
  | none => none
  | some none => none
  | some (some s) => if sessionExpiredBefore s now then none else some s

/-- `verifySession`: read the session, then re-resolve its sponsor code
against the live store with `findSponsorshipByCode`. -/
def verifySession (store : List SponsorshipRow)
    (cookie : Option (Option SessionData)) (now : Nat) :
    Option SponsorshipRow :=
  match getSession cookie now with
  | none => none
  | some s => findSponsorshipByCode store s.sponsorCode

/-- `updateSponsorshipRequestTracking`: update the `sponsorships` row with
the given id, unconditionally setting `last_request_at` and
`next_request_eligible_at`; no condition on the previous field values
appears in the update. -/
def updateSponsorshipRequestTracking (store : List SponsorshipRow)
    (recordId : String) (lastRequestAt nextEligibleAt : Nat) :
    List SponsorshipRow :=
  store.map fun r =>
    if r.id == recordId then
      { r with last_request_at := some lastRequestAt,
               next_request_eligible_at := some nextEligibleAt }
    else r

/-- The boolean predicate of the `findUpdatesForChild` query: `child_id =
childId`, `status = Published`, `visible_to_sponsor = true`. -/
def updatesForChildPred (childId : String) (r : UpdateRow) : Bool :=
  r.child_id == childId && r.status == UpdateStatus.Published &&
    r.visible_to_sponsor == true

/-- The ordering of `order('published_at', { ascending: false })`: `a`
may precede `b` when its key is at least `b`'s, a null key sorting first
(the backend default of nulls-first for a descending order). -/
def publishedAtDescLe (a b : UpdateRow) : Bool :=
  match a.published_at, b.published_at with
  | none, _ => true
  | some _, none => false
  | some x, some y => decide (y ≤ x)

/-- `findUpdatesForChild`: select from `updates` where the child matches,
status is Published and the row is visible, ordered by `published_at`
descending. -/
def findUpdatesForChild (store : List UpdateRow) (childId : String) :
    List UpdateRow :=
  (store.filter (updatesForChildPred childId)).mergeSort publishedAtDescLe

/-- The row inserted by `createUpdateRequest` (the generated primary key
is passed in; `now` is the clock reading taken at the top of the call). -/
def createUpdateRequestRow (newId childId sponsorCode : String) (now : Nat) :
    UpdateRow :=
  { id := newId
    child_id := childId
    sponsor_code := some sponsorCode
    update_type := UpdateType.ProgressReport
    title := "Update Requested"
    content := "Sponsor requested a new update."
    photos := none
    status := UpdateStatus.PendingReview
    visible_to_sponsor := false
    requested_by_sponsor := some true
    requested_at := some now
    published_at := none
    submitted_by := none
    submitted_at := none
    created_at := now }

/-- `createUpdateRequest`: insert the request row and return it. -/
def createUpdateRequest (store : List UpdateRow)
    (newId childId sponsorCode : String) (now : Nat) :
    List UpdateRow × UpdateRow :=
  let row := createUpdateRequestRow newId childId sponsorCode now
  (store ++ [row], row)

/-- The row inserted by `submitUpdate` (field-team submission). -/
def submitUpdateRow (newId childId : String) (sponsorCode : Option String)
    (updateType : UpdateType) (title content submittedBy : String)
    (now : Nat) : UpdateRow :=
  { id := newId
    child_id := childId
    sponsor_code := sponsorCode
    update_type := updateType
    title := title
    content := content
    photos := none
    status := UpdateStatus.PendingReview
    visible_to_sponsor := false
    requested_by_sponsor := none
    requested_at := none
    published_at := none
    submitted_by := some submittedBy
    submitted_at := some now
    created_at := now }

/-- `submitUpdate`: insert the submission row and return it. -/
def submitUpdate (store : List UpdateRow) (newId childId : String)
    (sponsorCode : Option String) (updateType : UpdateType)
    (title content submittedBy : String) (now : Nat) :
    List UpdateRow × UpdateRow :=
  let row := submitUpdateRow newId childId sponsorCode updateType title
    content submittedBy now
  (store ++ [row], row)

/-- The column assignment of `publishUpdate`: `status = Published`,
`visible_to_sponsor = true`, `published_at = now`. -/
def publishApply (r : UpdateRow) (now : Nat) : UpdateRow :=
  { r with status := UpdateStatus.Published, visible_to_sponsor := true,
           published_at := some now }

/-- The write step of `publishUpdate`: every row with the given id is
overwritten with the publish columns, every other row kept. -/
def publishWrite (store : List UpdateRow) (updateId : String) (now : Nat) :
    List UpdateRow :=
  store.map fun r => if r.id == updateId then publishApply r now else r

/-- `publishUpdate`: update the row with the given id (unconditionally on
its current state), then `select().single()` — zero or several matching
rows make `single()` fail, surfaced as a `DatabaseError`. -/
def publishUpdate (store : List UpdateRow) (updateId : String) (now : Nat) :
    Except String (List UpdateRow × UpdateRow) :=
  match (publishWrite store updateId now).filter (fun r => r.id == updateId) with
  | [r] => Except.ok (publishWrite store updateId now, r)
  | _ => Except.error "Failed to publish update"

/-- The column assignment of `rejectUpdate`: `status = Rejected`,
`visible_to_sponsor = false`; nothing else is written (in particular there
is no rejection-reason column in the row shape). -/
def rejectApply (r : UpdateRow) : UpdateRow :=
  { r with status := UpdateStatus.Rejected, visible_to_sponsor := false }

/-- The write step of `rejectUpdate`. -/
def rejectWrite (store : List UpdateRow) (updateId : String) :
    List UpdateRow :=
  store.map fun r => if r.id == updateId then rejectApply r else r

/-- `rejectUpdate`: update the row with the given id (unconditionally on
its current state), then `select().single()`. -/
def rejectUpdate (store : List UpdateRow) (updateId : String) :
    Except String (List UpdateRow × UpdateRow) :=
  match (rejectWrite store updateId).filter (fun r => r.id == updateId) with
  | [r] => Except.ok (rejectWrite store updateId, r)
  | _ => Except.error "Failed to reject update"

/-- The visibility invariant of the update model: the flag is true exactly
on Published rows. -/
def updateInvariant (r : UpdateRow) : Prop :=
  r.visible_to_sponsor = true ↔ r.status = UpdateStatus.Published

/-- `timingSafeCompare` of the auth module: both strings are UTF-8
encoded; differing byte lengths give false (after a self-comparison for
timing), equal lengths are compared byte for byte with
`crypto.timingSafeEqual`.  UTF-8 encoding is injective, so the byte
comparison of equal-length buffers coincides with string equality. -/
def timingSafeCompare (a b : String) : Bool :=
  if a.utf8ByteSize ≠ b.utf8ByteSize then false
  else a == b

/-- JavaScript `x || y` on nullable strings: an absent or empty left
operand falls through to the right operand. -/
def jsOrString (a b : Option String) : Option String :=
  match a with
  | some t => if t = "" then b else some t
  | none => b

/-- The `replace(/^Bearer\s+/i, '')` step of the Authorization header
path: a case-insensitive `Bearer` prefix followed by at least one
whitespace character is removed; anything else is left unchanged. -/
def stripBearer (s : String) : String :=
  if (s.take 6).toLower = "bearer" then
    let rest := s.drop 6
    let ws := rest.takeWhile Char.isWhitespace
    if ws.length = 0 then s else rest.drop ws.length
  else s

/-- The headers of an admin request that `verifyAdminToken` consults. -/
structure AdminRequest where
  xAdminToken : Option String
  authorization : Option String
deriving DecidableEq, Repr

/-- The candidate-token extraction of `verifyAdminToken`:
`X-Admin-Token || Authorization-with-Bearer-stripped || null` with
JavaScript falsiness (an empty string falls through). -/
def headerToken (req : AdminRequest) : Option String :=
  jsOrString req.xAdminToken
    (jsOrString (req.authorization.map stripBearer) none)

/-- `verifyAdminToken`: fail when no admin secret is configured
(`ADMIN_API_TOKEN` unset or empty, both falsy), fail when no candidate
token is present, otherwise compare in constant time.  The secret
argument models `process.env.ADMIN_API_TOKEN` (`none` = unset). -/
def verifyAdminToken (req : AdminRequest) (adminApiToken : Option String) :
    Bool :=
  match adminApiToken with
  | none => false
  | some secret =>
    if secret = "" then false
    else
      match headerToken req with
      | none => false
      | some t => timingSafeCompare t secret

/-- `verifyFormToken` of the admin submission route: a missing or empty
form token fails, a missing or empty configured secret fails, otherwise
the buffers are compared as in `timingSafeCompare`. -/
def verifyFormToken (token : Option String) (adminApiToken : Option String) :
    Bool :=
  match token with
  | none => false
  | some t =>
    if t = "" then false
    else
      match adminApiToken with
      | none => false
      | some secret =>
        if secret = "" then false
        else if t.utf8ByteSize ≠ secret.utf8ByteSize then false
        else t == secret

/-- A JavaScript thrown value as seen by the POST handler's catch block:
either an `Error` instance carrying a message, or any other value. -/
inductive JsThrown
  | errorObj (message : String)
  | nonError
deriving DecidableEq, Repr

/-- The store-failure path of the admin submission route: when the
backend responds not-ok, the handler throws
`new Error('Airtable API error: ' + await response.text())`, embedding
the raw backend response text in the error message. -/
def airtableFailureThrow (rawBackendText : String) : JsThrown :=
  JsThrown.errorObj ("Airtable API error: " ++ rawBackendText)

/-- The catch block of the admin submission route: the response body's
`error` field is the thrown `Error`'s own message when the thrown value
is an `Error`, and the generic fallback only otherwise; the status is
500. -/
def postCatchResponse (e : JsThrown) : String × Nat :=
  match e with
  | JsThrown.errorObj msg => (msg, 500)
  | JsThrown.nonError => ("Failed to submit update", 500)

/-- Modelled from the spec: the request-eligibility throttle of the
request-update route (the route handler itself is not among the source
files; §4.4 gives its rule).  Deny when `next_request_eligible_at` is set
and in the future, otherwise allow. -/
def throttleCheck (row : SponsorshipRow) (now : Nat) : Bool :=
  match row.next_request_eligible_at with
  | some t => decide (now ≥ t)
  | none => true

/-- The read phase of one request-update call: fetch the sponsorship row
by id and evaluate the throttle on it (false when the row is missing). -/
def requestCheckPhase (store : List SponsorshipRow) (recordId : String)
    (now : Nat) : Bool :=
  match (store.filter fun r => r.id == recordId).head? with
  | some r => throttleCheck r now
  | none => false

/-- Two request-update calls for the same sponsorship under the
interleaving where both read-and-check phases run before either write:
each call that passed its check then performs the unconditional tracking
write.  Returns the two success flags and the final store. -/
def raceBothCheckFirst (store : List SponsorshipRow) (recordId : String)
    (now cooldown : Nat) : Bool × Bool × List SponsorshipRow :=
  let ok1 := requestCheckPhase store recordId now
  let ok2 := requestCheckPhase store recordId now
  let store1 :=
    if ok1 then updateSponsorshipRequestTracking store recordId now
      (now + cooldown)
    else store
  let store2 :=
    if ok2 then updateSponsorshipRequestTracking store1 recordId now
      (now + cooldown)
    else store1
  (ok1, ok2, store2)

/-- The sponsor-code draw of `createSponsorship`:
`Math.floor(Math.random() * 900) + 100`, modelled by the floored draw
`k < 900`. -/
def generatedSponsorNum (k : Nat) : Nat := k + 100

/-- The sponsor code built by `createSponsorship`: `BAN-YEAR-NNN`. -/
def generatedSponsorCode (year k : Nat) : String :=
  "BAN-" ++ toString year ++ "-" ++ toString (generatedSponsorNum k)

/-- The row inserted by `createSponsorship` (the generated primary key,
the clock year and the PRNG draw are passed in; optional fields omitted
from the insert are null). -/
def createSponsorshipRow (newId : String) (year k : Nat)
    (sponsorEmail : String) (sponsorName : Option String)
    (childId childDisplayName : String) (childPhoto : Option (List Photo))
    (childAge childLocation : Option String) (startDate now : Nat) :
    SponsorshipRow :=
  { id := newId
    sponsor_code := generatedSponsorCode year k
    sponsor_email := sponsorEmail
    sponsor_name := sponsorName
    child_id := childId
    child_display_name := childDisplayName
    child_photo := childPhoto
    child_age := childAge
    child_location := childLocation
    sponsorship_start_date := some startDate
    auth_status := AuthStatus.Active
    status := some SponsorshipStatus.Active
    visible_to_sponsor := true
    last_request_at := none
    next_request_eligible_at := none
    created_at := now }

/-- `createSponsorship`: insert the row built by `createSponsorshipRow`
into the `sponsorships` table.  The table schema declares
`sponsor_code TEXT UNIQUE NOT NULL`, so an insert whose generated code
already exists violates the unique constraint: the store returns an
error and the function throws `DatabaseError` instead of creating a
second record with that code. -/
def createSponsorship (store : List SponsorshipRow) (newId : String)
    (year k : Nat) (sponsorEmail : String) (sponsorName : Option String)
    (childId childDisplayName : String) (childPhoto : Option (List Photo))
    (childAge childLocation : Option String) (startDate now : Nat) :
    Except String (List SponsorshipRow × SponsorshipRow) :=
  let row := createSponsorshipRow newId year k sponsorEmail sponsorName
    childId childDisplayName childPhoto childAge childLocation startDate now
  if store.any (fun r => r.sponsor_code == row.sponsor_code) then
    Except.error "Failed to create sponsorship"
  else
    Except.ok (store ++ [row], row)

/-! ### Concrete rows used as test data -/

/-- A sponsorship row that is Active and visible. -/
def activeRow : SponsorshipRow :=
  { id := "rec-a1"
    sponsor_code := "BAN-2025-104"
    sponsor_email := "a@x.com"
    sponsor_name := none
    child_id := "child-1"
    child_display_name := "Amara"
    child_photo := none
    child_age := none
    child_location := none
    sponsorship_start_date := none
    auth_status := AuthStatus.Active
    status := some SponsorshipStatus.Active
    visible_to_sponsor := true
    last_request_at := none
    next_request_eligible_at := none
    created_at := 0 }

/-- A sponsorship row that is Suspended and invisible. -/
def suspendedRow : SponsorshipRow :=
  { activeRow with
    id := "rec-s1"
    auth_status := AuthStatus.Suspended
    status := some SponsorshipStatus.Paused
    visible_to_sponsor := false }

/-- A sponsorship row whose `next_request_eligible_at` is set (to 5). -/
def eligibleRow : SponsorshipRow :=
  { activeRow with
    id := "sp1"
    next_request_eligible_at := some 5 }

/-- A pending update row. -/
def pendingU : UpdateRow :=
  { id := "u1"
    child_id := "child-1"
    sponsor_code := some "BAN-2025-104"
    update_type := UpdateType.ProgressReport
    title := "t"
    content := "c"
    photos := none
    status := UpdateStatus.PendingReview
    visible_to_sponsor := false
    requested_by_sponsor := some true
    requested_at := some 0
    published_at := none
    submitted_by := none
    submitted_at := none
    created_at := 0 }

/-- A rejected update row. -/
def rejectedU : UpdateRow :=
  { pendingU with
    id := "u2"
    status := UpdateStatus.Rejected }

/-! ### Helper lemmas -/

theorem head?_filter_some {α : Type} {p : α → Bool} {l : List α} {a : α}
    (h : (l.filter p).head? = some a) : a ∈ l ∧ p a = true := by
  rcases List.head?_eq_some_iff.mp h with ⟨ys, hys⟩
  have hmem : a ∈ l.filter p := by rw [hys]; exact List.mem_cons_self a ys
  exact List.mem_filter.mp hmem

theorem findSponsorshipByCode_some {store : List SponsorshipRow}
    {code : String} {r : SponsorshipRow}
    (h : findSponsorshipByCode store code = some r) :
    r ∈ store ∧ r.sponsor_code = code ∧ r.auth_status = AuthStatus.Active ∧
      r.visible_to_sponsor = true := by
  have := head?_filter_some h
  rcases this with ⟨hmem, hp⟩
  simp only [Bool.and_eq_true, beq_iff_eq] at hp
  exact ⟨hmem, hp.1.1, hp.1.2, hp.2⟩

theorem credentialsQuery_some {store : List SponsorshipRow}
    {email code : String} {r : SponsorshipRow}
    (h : credentialsQuery store email code = some r) :
    r ∈ store ∧ r.sponsor_email = email ∧ r.sponsor_code = code ∧
      r.auth_status = AuthStatus.Active ∧ r.visible_to_sponsor = true := by
  have := head?_filter_some h
  rcases this with ⟨hmem, hp⟩
  simp only [Bool.and_eq_true, beq_iff_eq] at hp
  exact ⟨hmem, hp.1.1.1, hp.1.1.2, hp.1.2, hp.2⟩

theorem publishApply_id (r : UpdateRow) (now : Nat) :
    (publishApply r now).id = r.id := rfl

theorem rejectApply_id (r : UpdateRow) : (rejectApply r).id = r.id := rfl

theorem filter_publishWrite (store : List UpdateRow) (updateId : String)
    (now : Nat) :
    (publishWrite store updateId now).filter (fun r => r.id == updateId) =
      (store.filter (fun r => r.id == updateId)).map
        (fun r => publishApply r now) := by
  unfold publishWrite
  rw [List.filter_map]
  have hp : ((fun r : UpdateRow => r.id == updateId) ∘
      fun r => if r.id == updateId then publishApply r now else r) =
      fun r : UpdateRow => r.id == updateId := by
    funext r
    by_cases hr : r.id = updateId
    · simp [hr, publishApply_id]
    · simp [hr]
  rw [hp]
  apply List.map_congr_left
  intro a ha
  have hpa := (List.mem_filter.mp ha).2
  simp [hpa]

theorem filter_rejectWrite (store : List UpdateRow) (updateId : String) :
    (rejectWrite store updateId).filter (fun r => r.id == updateId) =
      (store.filter (fun r => r.id == updateId)).map rejectApply := by
  unfold rejectWrite
  rw [List.filter_map]
  have hp : ((fun r : UpdateRow => r.id == updateId) ∘
      fun r => if r.id == updateId then rejectApply r else r) =
      fun r : UpdateRow => r.id == updateId := by
    funext r
    by_cases hr : r.id = updateId
    · simp [hr, rejectApply_id]
    · simp [hr]
  rw [hp]
  apply List.map_congr_left
  intro a ha
  have hpa := (List.mem_filter.mp ha).2
  simp [hpa]

theorem publishUpdate_eq_ok {store : List UpdateRow} {updateId : String}
    {r : UpdateRow} (now : Nat)
    (h : store.filter (fun q => q.id == updateId) = [r]) :
    publishUpdate store updateId now =
      Except.ok (publishWrite store updateId now, publishApply r now) := by
  unfold publishUpdate
  rw [filter_publishWrite, h]
  rfl

theorem rejectUpdate_eq_ok {store : List UpdateRow} {updateId : String}
    {r : UpdateRow}
    (h : store.filter (fun q => q.id == updateId) = [r]) :
    rejectUpdate store updateId =
      Except.ok (rejectWrite store updateId, rejectApply r) := by
  unfold rejectUpdate
  rw [filter_rejectWrite, h]
  rfl

theorem publishedAtDescLe_trans (a b c : UpdateRow) :
    publishedAtDescLe a b = true → publishedAtDescLe b c = true →
    publishedAtDescLe a c = true := by
  unfold publishedAtDescLe
  rcases a.published_at with _ | x <;> rcases b.published_at with _ | y <;>
    rcases c.published_at with _ | z <;> simp
  all_goals omega

theorem publishedAtDescLe_total (a b : UpdateRow) :
    (publishedAtDescLe a b || publishedAtDescLe b a) = true := by
  unfold publishedAtDescLe
  rcases a.published_at with _ | x <;> rcases b.published_at with _ | y <;>
    simp
  all_goals omega

theorem mem_findUpdatesForChild {store : List UpdateRow} {childId : String}
    {r : UpdateRow} :
    r ∈ findUpdatesForChild store childId ↔
      r ∈ store ∧ r.child_id = childId ∧ r.status = UpdateStatus.Published ∧
        r.visible_to_sponsor = true := by
  unfold findUpdatesForChild
  rw [List.mem_mergeSort, List.mem_filter]
  unfold updatesForChildPred
  simp only [Bool.and_eq_true, beq_iff_eq]
  constructor
  · rintro ⟨hm, ⟨⟨h1, h2⟩, h3⟩⟩
    exact ⟨hm, h1, h2, h3⟩
  · rintro ⟨hm, h1, h2, h3⟩
    exact ⟨hm, ⟨⟨h1, h2⟩, h3⟩⟩

theorem sorted_findUpdatesForChild (store : List UpdateRow)
    (childId : String) :
    List.Pairwise (fun a b => publishedAtDescLe a b = true)
      (findUpdatesForChild store childId) :=
  List.sorted_mergeSort publishedAtDescLe_trans publishedAtDescLe_total _

theorem publishUpdate_ok_store {storeU : List UpdateRow} {updateId : String}
    {now : Nat} {st : List UpdateRow} {out : UpdateRow}
    (hok : publishUpdate storeU updateId now = Except.ok (st, out)) :
    st = publishWrite storeU updateId now ∧ out ∈ st := by
  unfold publishUpdate at hok
  rcases hfl : (publishWrite storeU updateId now).filter
      (fun q => q.id == updateId) with _ | ⟨x, t⟩
  · rw [hfl] at hok; cases hok
  · rcases t with _ | ⟨y, t2⟩
    · rw [hfl] at hok
      simp only [Except.ok.injEq, Prod.mk.injEq] at hok
      rcases hok with ⟨hst, hout⟩
      subst hst; subst hout
      have hx : x ∈ (publishWrite storeU updateId now).filter
          (fun q => q.id == updateId) := by
        rw [hfl]; exact List.mem_singleton_self x
      exact ⟨rfl, List.mem_of_mem_filter hx⟩
    · rw [hfl] at hok; cases hok

theorem rejectUpdate_ok_store {storeU : List UpdateRow} {updateId : String}
    {st : List UpdateRow} {out : UpdateRow}
    (hok : rejectUpdate storeU updateId = Except.ok (st, out)) :
    st = rejectWrite storeU updateId ∧ out ∈ st := by
  unfold rejectUpdate at hok
  rcases hfl : (rejectWrite storeU updateId).filter
      (fun q => q.id == updateId) with _ | ⟨x, t⟩
  · rw [hfl] at hok; cases hok
  · rcases t with _ | ⟨y, t2⟩
    · rw [hfl] at hok
      simp only [Except.ok.injEq, Prod.mk.injEq] at hok
      rcases hok with ⟨hst, hout⟩
      subst hst; subst hout
      have hx : x ∈ (rejectWrite storeU updateId).filter
          (fun q => q.id == updateId) := by
        rw [hfl]; exact List.mem_singleton_self x
      exact ⟨rfl, List.mem_of_mem_filter hx⟩
    · rw [hfl] at hok; cases hok

theorem publishWrite_invariant {storeU : List UpdateRow} {updateId : String}
    {now : Nat} (hinv : ∀ r ∈ storeU, updateInvariant r) :
    ∀ r ∈ publishWrite storeU updateId now, updateInvariant r := by
  intro r hr
  rcases List.mem_map.mp hr with ⟨q, hq, rfl⟩
  by_cases hid : q.id = updateId
  · simp [hid, updateInvariant, publishApply]
  · simpa [hid] using hinv q hq

theorem rejectWrite_invariant {storeU : List UpdateRow} {updateId : String}
    (hinv : ∀ r ∈ storeU, updateInvariant r) :
    ∀ r ∈ rejectWrite storeU updateId, updateInvariant r := by
  intro r hr
  rcases List.mem_map.mp hr with ⟨q, hq, rfl⟩
  by_cases hid : q.id = updateId
  · simp [hid, updateInvariant, rejectApply]
  · simpa [hid] using hinv q hq

theorem timingSafeCompare_eq_true_iff (a b : String) :
    timingSafeCompare a b = true ↔ a = b := by
  unfold timingSafeCompare
  by_cases h : a.utf8ByteSize = b.utf8ByteSize
  · simp [h]
  · simp [h]
    intro hab
    exact h (by rw [hab])

/-! ### Claim theorems -/

/-- Claim C1: `verifySession` returns a sponsorship record exactly when
the session cookie is present, well-formed, and unexpired, and the
session's bound sponsor code re-resolves in the live store to a
sponsorship with activation status Active and visibility true; in every
other case it returns none (an expired session is treated as absent, not
as an error). -/
theorem verifySession_some_iff (store : List SponsorshipRow)
    (cookie : Option (Option SessionData)) (now : Nat) (r : SponsorshipRow) :
    verifySession store cookie now = some r ↔
      ∃ sd : SessionData, cookie = some (some sd) ∧
        sessionExpiredBefore sd now = false ∧
        findSponsorshipByCode store sd.sponsorCode = some r ∧
        r ∈ store ∧ r.sponsor_code = sd.sponsorCode ∧
        r.auth_status = AuthStatus.Active ∧ r.visible_to_sponsor = true := by
  constructor
  · intro h
    rcases cookie with _ | (_ | sd)
    · exact absurd h (by simp [verifySession, getSession])
    · exact absurd h (by simp [verifySession, getSession])
    · cases hexp : sessionExpiredBefore sd now with
      | true => exact absurd h (by simp [verifySession, getSession, hexp])
      | false =>
        have hfind : findSponsorshipByCode store sd.sponsorCode = some r := by
          simpa [verifySession, getSession, hexp] using h
        rcases findSponsorshipByCode_some hfind with ⟨h1, h2, h3, h4⟩
        exact ⟨sd, rfl, hexp, hfind, h1, h2, h3, h4⟩
  · rintro ⟨sd, rfl, hexp, hfind, -, -, -, -⟩
    simpa [verifySession, getSession, hexp] using hfind

/-- Claim C2: the visibility flag is true exactly when the review status
is Published, and every lifecycle operation establishes or preserves
this: both creation paths produce PendingReview invisible rows,
publishing yields Published visible rows, rejecting yields Rejected
invisible rows. -/
theorem updateLifecycle_invariant (storeU : List UpdateRow)
    (newId childId sponsorCode : String) (sc : Option String)
    (ut : UpdateType) (title content submittedBy updateId : String)
    (now : Nat) (hinv : ∀ r ∈ storeU, updateInvariant r) :
    ((createUpdateRequestRow newId childId sponsorCode now).status =
        UpdateStatus.PendingReview ∧
      (createUpdateRequestRow newId childId sponsorCode
          now).visible_to_sponsor = false) ∧
    ((submitUpdateRow newId childId sc ut title content submittedBy
          now).status = UpdateStatus.PendingReview ∧
      (submitUpdateRow newId childId sc ut title content submittedBy
          now).visible_to_sponsor = false) ∧
    (∀ r : UpdateRow, (publishApply r now).status = UpdateStatus.Published ∧
      (publishApply r now).visible_to_sponsor = true) ∧
    (∀ r : UpdateRow, (rejectApply r).status = UpdateStatus.Rejected ∧
      (rejectApply r).visible_to_sponsor = false) ∧
    (∀ r ∈ (createUpdateRequest storeU newId childId sponsorCode now).1,
      updateInvariant r) ∧
    (∀ r ∈ (submitUpdate storeU newId childId sc ut title content
        submittedBy now).1, updateInvariant r) ∧
    (∀ st out, publishUpdate storeU updateId now = Except.ok (st, out) →
      ∀ r ∈ st, updateInvariant r) ∧
    (∀ st out, rejectUpdate storeU updateId = Except.ok (st, out) →
      ∀ r ∈ st, updateInvariant r) := by
  refine ⟨⟨rfl, rfl⟩, ⟨rfl, rfl⟩, fun r => ⟨rfl, rfl⟩, fun r => ⟨rfl, rfl⟩,
    ?_, ?_, ?_, ?_⟩
  · intro r hr
    rcases List.mem_append.mp hr with h | h
    · exact hinv r h
    · rw [List.mem_singleton.mp h]
      simp [updateInvariant, createUpdateRequestRow]
  · intro r hr
    rcases List.mem_append.mp hr with h | h
    · exact hinv r h
    · rw [List.mem_singleton.mp h]
      simp [updateInvariant, submitUpdateRow]
  · intro st out hok
    rcases publishUpdate_ok_store hok with ⟨hst, -⟩
    rw [hst]
    exact publishWrite_invariant hinv
  · intro st out hok
    rcases rejectUpdate_ok_store hok with ⟨hst, -⟩
    rw [hst]
    exact rejectWrite_invariant hinv

/-- Claim C2 witness: concrete instantiation on the empty store. -/
theorem updateLifecycle_invariant_witness :
    (createUpdateRequestRow "u9" "child-1" "BAN-2025-104" 3).status =
        UpdateStatus.PendingReview ∧
      (createUpdateRequestRow "u9" "child-1" "BAN-2025-104"
          3).visible_to_sponsor = false :=
  (updateLifecycle_invariant [] "u9" "child-1" "BAN-2025-104" none
    UpdateType.ProgressReport "t" "c" "staff" "u9" 3
    (by intro r hr; cases hr)).1

/-- Claim C3 counterexample: the client-side step after the credentials
query returns the queried row unchanged — a row with Suspended activation
status and visibility false handed back by the store is not mapped to
NotFound, so no client-side re-check exists. -/
theorem credentialsPostProcess_no_recheck :
    credentialsPostProcess (some suspendedRow) = some suspendedRow ∧
      suspendedRow.auth_status ≠ AuthStatus.Active ∧
      suspendedRow.visible_to_sponsor = false ∧
      credentialsPostProcess (some suspendedRow) ≠ none := by
  refine ⟨rfl, by decide, rfl, by decide⟩

/-- Claim C3 amended: `findSponsorshipByCredentials` performs no
client-side re-check — its post-query step is the identity on the query
result; the activation and visibility guarantees on any returned record
come solely from the query predicate itself. -/
theorem findSponsorshipByCredentials_query_only
    (store : List SponsorshipRow) (email code : String)
    (d : Option SponsorshipRow) (r : SponsorshipRow) :
    credentialsPostProcess d = d ∧
      (findSponsorshipByCredentials store email code = some r →
        r ∈ store ∧ r.sponsor_email = email ∧ r.sponsor_code = code ∧
          r.auth_status = AuthStatus.Active ∧
          r.visible_to_sponsor = true) := by
  constructor
  · cases d <;> rfl
  · intro h
    have hq : credentialsQuery store email code = some r := by
      unfold findSponsorshipByCredentials at h
      rcases hd : credentialsQuery store email code with _ | a
      · rw [hd] at h; cases h
      · rw [hd] at h
        simp only [credentialsPostProcess, Option.some.injEq] at h
        rw [h]
    exact credentialsQuery_some hq

/-- Claim C3 amended witness: the query-predicate guarantee evaluated on a
concrete one-row store. -/
theorem findSponsorshipByCredentials_query_only_witness :
    activeRow ∈ [activeRow] ∧ activeRow.sponsor_email = "a@x.com" ∧
      activeRow.sponsor_code = "BAN-2025-104" ∧
      activeRow.auth_status = AuthStatus.Active ∧
      activeRow.visible_to_sponsor = true :=
  (findSponsorshipByCredentials_query_only [activeRow] "a@x.com"
    "BAN-2025-104" none activeRow).2 (by decide)

/-- Claim C4: with no configured admin secret (unset or empty, both falsy)
both the header-based and the form-based admin verifiers return false,
and a successful verification implies the supplied candidate equals the
configured secret. -/
theorem adminToken_fails_closed (req : AdminRequest) (tok : Option String)
    (secret : Option String) :
    ((secret = none ∨ secret = some "") →
        verifyAdminToken req secret = false ∧
          verifyFormToken tok secret = false) ∧
      (verifyAdminToken req secret = true →
        ∃ s, secret = some s ∧ headerToken req = some s) ∧
      (verifyFormToken tok secret = true →
        ∃ s, secret = some s ∧ tok = some s) := by
  refine ⟨?_, ?_, ?_⟩
  · rintro (rfl | rfl)
    · exact ⟨rfl, by cases tok <;> simp [verifyFormToken]⟩
    · constructor
      · simp [verifyAdminToken]
      · cases tok <;> simp [verifyFormToken]
  · intro h
    rcases secret with _ | s
    · simp [verifyAdminToken] at h
    · by_cases hs : s = ""
      · simp [verifyAdminToken, hs] at h
      · have h2 : (if s = "" then false
            else match headerToken req with
              | none => false
              | some t => timingSafeCompare t s) = true := h
        rw [if_neg hs] at h2
        rcases hht : headerToken req with _ | t
        · rw [hht] at h2; simp at h2
        · rw [hht] at h2
          have hts : timingSafeCompare t s = true := h2
          have : t = s := (timingSafeCompare_eq_true_iff t s).mp hts
          exact ⟨s, rfl, by rw [this]⟩
  · intro h
    rcases tok with _ | t
    · simp [verifyFormToken] at h
    · by_cases ht : t = ""
      · simp [verifyFormToken, ht] at h
      · rcases secret with _ | s
        · simp [verifyFormToken, ht] at h
        · by_cases hs : s = ""
          · simp [verifyFormToken, ht, hs] at h
          · refine ⟨s, rfl, ?_⟩
            have h2 : (if t = "" then false
                else if s = "" then false
                else if t.utf8ByteSize ≠ s.utf8ByteSize then false
                else t == s) = true := h
            rw [if_neg ht, if_neg hs] at h2
            by_cases hsz : t.utf8ByteSize ≠ s.utf8ByteSize
            · rw [if_pos hsz] at h2; simp at h2
            · rw [if_neg hsz] at h2
              rw [beq_iff_eq.mp h2]

/-- Claim C4 witness: with an unset secret, both verifiers fail on a
concrete request and form token. -/
theorem adminToken_fails_closed_witness :
    verifyAdminToken { xAdminToken := some "x", authorization := none }
        none = false ∧
      verifyFormToken (some "x") none = false :=
  (adminToken_fails_closed
    { xAdminToken := some "x", authorization := none } (some "x") none).1
    (Or.inl rfl)

/-- Claim C5 counterexample: publishing the same update twice, at times 1
and then 2, succeeds both times (the second call is not rejected as an
invalid transition) and the second call restamps `published_at` from 1
to 2. -/
theorem publishUpdate_second_call_restamps :
    publishUpdate [pendingU] "u1" 1 =
        Except.ok ([publishApply pendingU 1], publishApply pendingU 1) ∧
      publishUpdate [publishApply pendingU 1] "u1" 2 =
        Except.ok ([publishApply (publishApply pendingU 1) 2],
          publishApply (publishApply pendingU 1) 2) ∧
      (publishApply pendingU 1).published_at = some 1 ∧
      (publishApply (publishApply pendingU 1) 2).published_at = some 2 := by
  refine ⟨rfl, rfl, rfl, rfl⟩

/-- Claim C5 amended: `publishUpdate` is unconditional — a second call on
the already-Published row succeeds again and silently restamps
`published_at` with the new call time; `rejectUpdate`'s column write is
idempotent on the row (and there is no rejection-reason column at all). -/
theorem publishUpdate_restamps_rejectUpdate_idem (store : List UpdateRow)
    (updateId : String) (r : UpdateRow) (now1 now2 : Nat)
    (h : store.filter (fun q => q.id == updateId) = [r]) :
    publishUpdate store updateId now1 =
        Except.ok (publishWrite store updateId now1, publishApply r now1) ∧
      publishUpdate (publishWrite store updateId now1) updateId now2 =
        Except.ok
          (publishWrite (publishWrite store updateId now1) updateId now2,
            publishApply (publishApply r now1) now2) ∧
      (publishApply (publishApply r now1) now2).published_at = some now2 ∧
      rejectApply (rejectApply r) = rejectApply r := by
  have h2 : (publishWrite store updateId now1).filter
      (fun q => q.id == updateId) = [publishApply r now1] := by
    rw [filter_publishWrite, h]; rfl
  exact ⟨publishUpdate_eq_ok now1 h, publishUpdate_eq_ok now2 h2, rfl, rfl⟩

/-- Claim C5 amended witness: the concrete restamp from time 1 to time 2. -/
theorem publishUpdate_restamps_witness :
    (publishApply (publishApply pendingU 1) 2).published_at = some 2 :=
  (publishUpdate_restamps_rejectUpdate_idem [pendingU] "u1" pendingU 1 2
    (by decide)).2.2.1

/-- Claim C6 counterexample: a backend failure with raw error text
"relation does not exist" reaches the client with that raw text embedded
in the response body instead of the generic failure message. -/
theorem postCatch_echoes_backend_text :
    postCatchResponse (airtableFailureThrow "relation does not exist") =
        ("Airtable API error: relation does not exist", 500) ∧
      "Airtable API error: " ++ "relation does not exist" =
        "Airtable API error: relation does not exist" ∧
      ("Airtable API error: relation does not exist" : String) ≠
        "Failed to submit update" :=
  ⟨rfl, rfl, by decide⟩

/-- Claim C6 amended: the admin submission endpoint echoes the caught
error's own message — for a failed backend call that message is the
label "Airtable API error: " followed by the raw backend response text —
and returns the generic failure message only when the thrown value is
not an Error instance. -/
theorem postCatchResponse_spec (raw : String) :
    postCatchResponse (airtableFailureThrow raw) =
        ("Airtable API error: " ++ raw, 500) ∧
      postCatchResponse JsThrown.nonError =
        ("Failed to submit update", 500) :=
  ⟨rfl, rfl⟩

/-- Claim C7: `findUpdatesForChild` returns exactly the updates of the
given child that are Published and visible, ordered newest-first by
publish time; a sponsor-requested update is not included while pending
and is included once `publishUpdate` has run on it. -/
theorem findUpdatesForChild_spec (store reqStore : List UpdateRow)
    (childId newId sponsorCode updateId : String) (now pubNow : Nat)
    (r : UpdateRow) (st2 : List UpdateRow) (out : UpdateRow) :
    (r ∈ findUpdatesForChild store childId ↔
      r ∈ store ∧ r.child_id = childId ∧
        r.status = UpdateStatus.Published ∧
        r.visible_to_sponsor = true) ∧
    List.Pairwise (fun a b => publishedAtDescLe a b = true)
      (findUpdatesForChild store childId) ∧
    createUpdateRequestRow newId childId sponsorCode now ∉
      findUpdatesForChild store childId ∧
    (reqStore.filter (fun q => q.id == updateId) =
        [createUpdateRequestRow newId childId sponsorCode now] →
      publishUpdate reqStore updateId pubNow = Except.ok (st2, out) →
      out ∈ findUpdatesForChild st2 childId) := by
  refine ⟨mem_findUpdatesForChild, sorted_findUpdatesForChild store childId,
    ?_, ?_⟩
  · intro hmem
    have hstat := (mem_findUpdatesForChild.mp hmem).2.2.1
    simp [createUpdateRequestRow] at hstat
  · intro hflt hok
    have hok2 := (publishUpdate_eq_ok pubNow hflt).symm.trans hok
    simp only [Except.ok.injEq, Prod.mk.injEq] at hok2
    rcases hok2 with ⟨hst, hout⟩
    subst hst; subst hout
    have hrow : createUpdateRequestRow newId childId sponsorCode now ∈
        reqStore.filter (fun q => q.id == updateId) := by
      rw [hflt]; exact List.mem_singleton_self _
    have hrowmem := List.mem_of_mem_filter hrow
    have hid : ((createUpdateRequestRow newId childId sponsorCode now).id ==
        updateId) = true := (List.mem_filter.mp hrow).2
    refine mem_findUpdatesForChild.mpr ⟨?_, rfl, rfl, rfl⟩
    unfold publishWrite
    refine List.mem_map.mpr
      ⟨createUpdateRequestRow newId childId sponsorCode now, hrowmem, ?_⟩
    rw [if_pos hid]

/-- Claim C7 witness: the request-then-publish scenario run on a one-row
store. -/
theorem findUpdatesForChild_spec_witness :
    publishApply (createUpdateRequestRow "u1" "child-1" "BAN-2025-104" 0) 7 ∈
      findUpdatesForChild
        (publishWrite
          [createUpdateRequestRow "u1" "child-1" "BAN-2025-104" 0] "u1" 7)
        "child-1" :=
  (findUpdatesForChild_spec []
    [createUpdateRequestRow "u1" "child-1" "BAN-2025-104" 0]
    "child-1" "u1" "BAN-2025-104" "u1" 0 7 pendingU
    (publishWrite
      [createUpdateRequestRow "u1" "child-1" "BAN-2025-104" 0] "u1" 7)
    (publishApply
      (createUpdateRequestRow "u1" "child-1" "BAN-2025-104" 0) 7)).2.2.2
    (by decide) rfl

/-- Claim C8 counterexample: with `next_request_eligible_at = 5` in the
past (now = 10), two request-update calls interleaved as
check-check-write-write both pass the throttle — two successes and no
denial, because the tracking write is unconditional. -/
theorem throttleRace_two_successes :
    (raceBothCheckFirst [eligibleRow] "sp1" 10 604800000).1 = true ∧
      (raceBothCheckFirst [eligibleRow] "sp1" 10 604800000).2.1 = true :=
  ⟨rfl, rfl⟩

/-- Claim C8 amended: the tracking write is an unconditional single-row
update with no condition on the previous `next_request_eligible_at`, so
under the interleaving in which both calls run their eligibility check
before either writes, every passing check leads to a write — both calls
succeed. -/
theorem throttleRace_unconditional (store : List SponsorshipRow)
    (recordId : String) (now cooldown : Nat)
    (h : requestCheckPhase store recordId now = true) :
    raceBothCheckFirst store recordId now cooldown =
      (true, true,
        updateSponsorshipRequestTracking
          (updateSponsorshipRequestTracking store recordId now
            (now + cooldown))
          recordId now (now + cooldown)) := by
  simp [raceBothCheckFirst, h]

/-- Claim C8 amended witness: the race evaluated on the concrete
one-row store. -/
theorem throttleRace_unconditional_witness :
    raceBothCheckFirst [eligibleRow] "sp1" 10 20 =
      (true, true,
        updateSponsorshipRequestTracking
          (updateSponsorshipRequestTracking [eligibleRow] "sp1" 10 30)
          "sp1" 10 30) :=
  throttleRace_unconditional [eligibleRow] "sp1" 10 20 (by decide)

/-- Claim C9: sponsor codes are globally unique across the sponsorship
records ever created: the schema's UNIQUE constraint on `sponsor_code`
makes a colliding insert fail — `createSponsorship` throws instead of
creating a second record with the code — so a successful creation
carries a code different from every existing record's, pairwise
distinctness of codes is preserved, and a run whose generated code
already exists creates no record at all. -/
theorem createSponsorship_codes_unique (store : List SponsorshipRow)
    (newId : String) (year k : Nat) (em : String) (sn : Option String)
    (ci cd : String) (cp : Option (List Photo)) (ca cl : Option String)
    (sd now : Nat) :
    (∀ st out,
      createSponsorship store newId year k em sn ci cd cp ca cl sd now =
          Except.ok (st, out) →
      store.Pairwise (fun a b => a.sponsor_code ≠ b.sponsor_code) →
      (∀ r ∈ store, r.sponsor_code ≠ out.sponsor_code) ∧
        st = store ++ [out] ∧
        st.Pairwise (fun a b => a.sponsor_code ≠ b.sponsor_code)) ∧
    ((∃ r ∈ store, r.sponsor_code = generatedSponsorCode year k) →
      createSponsorship store newId year k em sn ci cd cp ca cl sd now =
        Except.error "Failed to create sponsorship") := by
  constructor
  · intro st out hok hu
    by_cases hany : store.any (fun r => r.sponsor_code ==
        (createSponsorshipRow newId year k em sn ci cd cp ca cl sd
          now).sponsor_code) = true
    · simp only [createSponsorship, hany, if_true] at hok
      cases hok
    · simp only [createSponsorship, hany, Bool.false_eq_true, if_false] at hok
      simp only [Except.ok.injEq, Prod.mk.injEq] at hok
      rcases hok with ⟨hst, hout⟩
      subst hst; subst hout
      have hfresh : ∀ r ∈ store, r.sponsor_code ≠
          (createSponsorshipRow newId year k em sn ci cd cp ca cl sd
            now).sponsor_code := by
        intro r hr heq
        exact hany (List.any_eq_true.mpr ⟨r, hr, beq_iff_eq.mpr heq⟩)
      refine ⟨hfresh, rfl, ?_⟩
      rw [List.pairwise_append]
      refine ⟨hu, List.pairwise_singleton _ _, ?_⟩
      intro a ha b hb
      rw [List.mem_singleton.mp hb]
      exact hfresh a ha
  · rintro ⟨r, hr, hcode⟩
    have hany : store.any (fun q => q.sponsor_code ==
        (createSponsorshipRow newId year k em sn ci cd cp ca cl sd
          now).sponsor_code) = true :=
      List.any_eq_true.mpr ⟨r, hr, beq_iff_eq.mpr hcode⟩
    simp only [createSponsorship, hany, if_true]

/-- Claim C9 witness: a second creation run in the same year with the
same draw as an existing record hits the unique constraint and throws,
creating no record. -/
theorem createSponsorship_codes_unique_witness :
    createSponsorship
        [createSponsorshipRow "rec1" 2025 5 "a@x.com" none "c1" "A" none
          none none 0 0]
        "rec2" 2025 5 "b@y.com" none "c2" "B" none none none 0 0 =
      Except.error "Failed to create sponsorship" :=
  (createSponsorship_codes_unique
    [createSponsorshipRow "rec1" 2025 5 "a@x.com" none "c1" "A" none none
      none 0 0]
    "rec2" 2025 5 "b@y.com" none "c2" "B" none none none 0 0).2
    ⟨createSponsorshipRow "rec1" 2025 5 "a@x.com" none "c1" "A" none none
      none 0 0, List.mem_singleton_self _, rfl⟩

/-- Claim C10: `publishUpdate` and `rejectUpdate` check no precondition on
the current review status — the only condition for success is that the id
matches exactly one row; whatever that row's state (in particular
Rejected), publishing sets Published, visible, and a fresh
`published_at`, and rejecting sets Rejected and invisible. -/
theorem publish_reject_unconditional (store : List UpdateRow)
    (updateId : String) (now : Nat) (r : UpdateRow)
    (h : store.filter (fun q => q.id == updateId) = [r]) :
    publishUpdate store updateId now =
        Except.ok (publishWrite store updateId now, publishApply r now) ∧
      rejectUpdate store updateId =
        Except.ok (rejectWrite store updateId, rejectApply r) ∧
      (publishApply r now).status = UpdateStatus.Published ∧
      (publishApply r now).visible_to_sponsor = true ∧
      (publishApply r now).published_at = some now ∧
      (rejectApply r).status = UpdateStatus.Rejected ∧
      (rejectApply r).visible_to_sponsor = false :=
  ⟨publishUpdate_eq_ok now h, rejectUpdate_eq_ok h, rfl, rfl, rfl, rfl, rfl⟩

/-- Claim C10 witness: a Rejected row is re-published and made visible by
a single publish call. -/
theorem publish_reject_unconditional_witness :
    (publishApply rejectedU 7).status = UpdateStatus.Published ∧
      (publishApply rejectedU 7).visible_to_sponsor = true :=
  ⟨(publish_reject_unconditional [rejectedU] "u2" 7 rejectedU
      (by decide)).2.2.1,
   (publish_reject_unconditional [rejectedU] "u2" 7 rejectedU
      (by decide)).2.2.2.1⟩

end BeanUmber
